import Mathlib

/-!
Shallow embedding of `src/main.py` (Game-recommender), a Kivy GUI app that
fetches popular games from a paginated REST API and renders their posters.

The embedding models:
  * `GameDetails` (lines 40-45): the decoded game record;
  * `fetch_popular_games` (lines 48-71): one page fetch, modelled as a total
    function over an abstract `PageResponse` describing what the HTTP layer
    delivered (network error, status code, body shape);
  * `build` (lines 82-122): the startup guard on the API key;
  * `load_games` (lines 125-153): the five-page loop, the tile loop, and the
    try/except/finally discipline;
  * `show_game_details` / `go_back` (lines 156-173): screen navigation.

Python exceptions become `Option`/explicit error branches; Python truthiness
of `None` / lists is modelled by `pythonTruthy`.
-/

namespace GameApp

/-- The decoded game record (`GameDetails.__init__`, src/main.py lines 40-45). -/
structure GameDetails where
  name : String
  description : String
  release_date : String
  background_image : String
deriving Repr, DecidableEq

/-- One JSON object of the `results` array, before decoding: every field the
code reads is optional at the JSON level (`name`, `description`, `released`,
`background_image`). -/
structure ApiGameItem where
  name : Option String
  description : Option String
  released : Option String
  background_image : Option String
deriving Repr, DecidableEq

/-- The JSON body delivered with an HTTP reply: `malformed` makes
`response.json()` raise; `jsonNoResults` is a valid JSON object with no
`results` key (so `.get` yields `[]`); `jsonResults` carries the array. -/
inductive Body where
  | malformed : Body
  | jsonNoResults : Body
  | jsonResults : List ApiGameItem → Body
deriving Repr, DecidableEq

/-- What `requests.get` produced for one page: either the request itself
raised (`netError`, a `requests.RequestException`), or a reply with a final
HTTP status code and a body. -/
inductive PageResponse where
  | netError : PageResponse
  | reply : Nat → Body → PageResponse
deriving Repr, DecidableEq

/-- `response.raise_for_status()` raises `requests.HTTPError` exactly for
status codes 400-599 (4xx client errors and 5xx server errors). -/
def raise_for_status_raises (status : Nat) : Prop :=
  400 ≤ status ∧ status < 600

instance (status : Nat) : Decidable (raise_for_status_raises status) :=
  inferInstanceAs (Decidable (_ ∧ _))

/-- Decoding one item of `results` (src/main.py lines 59-64):
`game_data['name']` raises `KeyError` when absent (modelled as `none`), the
other three fields use `.get` with the sentinel defaults. -/
def decodeItem (g : ApiGameItem) : Option GameDetails :=
  match g.name with
  | none => none
  | some n =>
      some { name := n
             description := g.description.getD "No description available"
             release_date := g.released.getD "Unknown release date"
             background_image := g.background_image.getD "" }

/-- The list comprehension of src/main.py lines 58-66: decoding stops with an
exception (here `none`) as soon as any single item lacks `name`. -/
def decodeItems : List ApiGameItem → Option (List GameDetails)
  | [] => some []
  | g :: rest =>
      match decodeItem g, decodeItems rest with
      | some r, some rs => some (r :: rs)
      | _, _ => none

/-- `fetch_popular_games` (src/main.py lines 48-71) as a function of the
abstract page response. A raised `RequestException` (network error or
`raise_for_status`) and any other exception (malformed JSON, `KeyError` on a
missing `name`) are caught by the two `except` clauses and yield `None`;
otherwise the decoded list is returned. A missing `results` key yields the
default `[]` and hence `some []`. -/
def fetch_popular_games (resp : PageResponse) : Option (List GameDetails) :=
  match resp with
  | .netError => none
  | .reply status body =>
      if raise_for_status_raises status then none
      else
        match body with
        | .malformed => none
        | .jsonNoResults => decodeItems []
        | .jsonResults items => decodeItems items

/-- Python truthiness of `popular_games_page` at src/main.py line 130:
`None` and the empty list are falsy, a non-empty list is truthy. -/
def pythonTruthy : Option (List GameDetails) → Bool
  | none => false
  | some l => !l.isEmpty

/-- The error message logged at src/main.py line 133 for a falsy page. -/
def failLog (p : Nat) : String :=
  "Failed to get popular games for page " ++ toString p

/-- One iteration of the page loop (src/main.py lines 128-134), acting on the
pair (accumulated games, accumulated log entries). -/
def pageFetchStep (responses : Nat → PageResponse)
    (acc : List GameDetails × List String) (p : Nat) :
    List GameDetails × List String :=
  let page := fetch_popular_games (responses p)
  if pythonTruthy page then (acc.1 ++ page.getD [], acc.2)
  else (acc.1, acc.2 ++ [failLog p])

/-- The page loop of `load_games` (src/main.py lines 127-134):
`for page_number in range(1, 6)` over the environment `responses`, returning
`all_popular_games` together with the failure log entries. -/
def fetchPages (responses : Nat → PageResponse) :
    List GameDetails × List String :=
  (List.range' 1 5).foldl (pageFetchStep responses) ([], [])

/-- The two screens of the `ScreenManager` (src/main.py lines 86, 119). -/
inductive ScreenName where
  | mainScreen : ScreenName
  | detailScreen : ScreenName
deriving Repr, DecidableEq

/-- The GUI state the claims observe: the red status label `error_label`,
whether `loading_popup` is open, the `ScreenManager`'s current screen, the
poster tiles added to `poster_grid_layout` (as the records they render, in
grid order), the detail-screen labels, and the log file entries. -/
structure AppState where
  error_label : String
  popup_open : Bool
  current : ScreenName
  tiles : List GameDetails
  detail_labels : List String
  log : List String
deriving Repr, DecidableEq

/-- `api_key = os.getenv('GAME_API_KEY', 'your_api_key_here')`
(src/main.py line 35): the environment value when the variable is set,
otherwise the compiled-in fallback literal. -/
def api_key (env : Option String) : String :=
  env.getD "your_api_key_here"

/-- The fixed error message of src/main.py line 109. -/
def buildErrorMsg : String :=
  "Error: API key not found. Please check your environment variables or the default API key in the code."

/-- GUI state right after the widgets of `build` are created and
`loading_popup.open()` has run (src/main.py lines 82-106). -/
def initialState : AppState :=
  { error_label := ""
    popup_open := true
    current := .mainScreen
    tiles := []
    detail_labels := []
    log := [] }

/-- Result of `build`: the GUI state it returns plus whether
`Clock.schedule_once(self.load_games, 1)` was registered. -/
structure BuildResult where
  state : AppState
  loadScheduled : Bool
deriving Repr, DecidableEq

/-- `GamePosterApp.build` (src/main.py lines 82-122) after widget setup:
`if not api_key` (line 108) — the key is falsy exactly when it is the empty
string — sets the fixed error label, dismisses the loading popup and returns
without scheduling `load_games`; otherwise `load_games` is scheduled. -/
def build (key : String) : BuildResult :=
  if key = "" then
    { state := { initialState with
                   error_label := buildErrorMsg
                   popup_open := false }
      loadScheduled := false }
  else
    { state := initialState, loadScheduled := true }

/-- Number of `requests.get` calls issued by one run of `load_games`: the
page loop calls `fetch_popular_games` once per page in `range(1, 6)`, and
each call issues exactly one HTTP request (src/main.py line 55). -/
def loadGamesHttpRequests : Nat :=
  (List.range' 1 5).length

/-- HTTP requests issued by the whole startup flow for a given key:
`requests.get` is reached only inside `load_games`, which runs only when
`build` scheduled it. -/
def startupHttpRequests (key : String) : Nat :=
  if (build key).loadScheduled then loadGamesHttpRequests else 0

/-- The warning logged at src/main.py line 147 for a record with no image. -/
def noImageLog (name : String) : String :=
  "No image available for the game: " ++ name

/-- The tile loop of `load_games` (src/main.py lines 136-147): for each
record, a non-empty `background_image` yields one `AsyncImage` tile added to
the grid (line 141 attempts to bind `show_game_details` to its `on_release`;
see `tileReleaseHandler` for what that bind actually attaches), an empty one
yields a logged warning naming the game and no tile. -/
def addTiles (games : List GameDetails) (s : AppState) : AppState :=
  games.foldl
    (fun st g =>
      if g.background_image = "" then
        { st with log := st.log ++ [noImageLog g.name] }
      else
        { st with tiles := st.tiles ++ [g] })
    s

/-- The status-label message built at src/main.py line 150 from an
unexpected exception. -/
def generalErrorMsg (e : String) : String :=
  "General error: " ++ e ++ ". Please check your setup and try again."

/-- The `try` body of `load_games` (src/main.py lines 127-147): run the page
loop, append its failure log entries, then run the tile loop. -/
def load_games_body (responses : Nat → PageResponse) (s : AppState) :
    AppState :=
  let fetched := fetchPages responses
  addTiles fetched.1 { s with log := s.log ++ fetched.2 }

/-- `GamePosterApp.load_games` (src/main.py lines 125-153) with its
try/except/finally discipline. `crash = some e` models an unexpected
exception with message `e` raised inside the `try` body: the `except` clause
(lines 149-151) writes `generalErrorMsg e` to the status label and the log
instead of letting it propagate. In both cases the `finally` clause
(lines 152-153) dismisses the loading popup. -/
def load_games (responses : Nat → PageResponse) (crash : Option String)
    (s : AppState) : AppState :=
  let after :=
    match crash with
    | none => load_games_body responses s
    | some e =>
        { s with
            error_label := generalErrorMsg e
            log := s.log ++ [generalErrorMsg e] }
  { after with popup_open := false }

/-- `GamePosterApp.show_game_details` (src/main.py lines 156-169): rebuild
the detail screen's static labels and switch the `ScreenManager` to the
detail screen, unconditionally. -/
def show_game_details (s : AppState) : AppState :=
  { s with
      detail_labels := ["Game Name", "Game Description", "Release Date", "Back"]
      current := .detailScreen }

/-- Whether `AsyncImage` registers an `on_release` event: it does not.
Kivy's `Image`/`AsyncImage` dispatch only the base `Widget` touch events;
`on_press`/`on_release` exist only on widgets mixing in `ButtonBehavior`. -/
def asyncImageRegistersOnRelease : Bool := false

/-- The effect of `game_poster.bind(on_release=self.show_game_details)` at
src/main.py line 141: Kivy's `EventDispatcher.bind` silently skips an
`on_*` key whose event the widget never registered, so on an `AsyncImage`
the bind attaches nothing and the tile ends up with no release handler. -/
def tileReleaseHandler : Option (AppState → AppState) :=
  if asyncImageRegistersOnRelease then some show_game_details else none

/-- Tapping a rendered tile: Kivy dispatches `on_release` to the tile's
bound handler when one exists; with none bound (the actual situation, see
`tileReleaseHandler`), the tap changes nothing. -/
def tapTile (s : AppState) : AppState :=
  match tileReleaseHandler with
  | some h => h s
  | none => s

/-- `GamePosterApp.go_back` (src/main.py lines 172-173), bound to the
detail screen's Back button: switch back to the main screen,
unconditionally. -/
def go_back (s : AppState) : AppState :=
  { s with current := .mainScreen }

/-! ## Derived observations of the page loop -/

/-- What one page contributes to `all_popular_games`: its decoded records
when the fetch result is truthy, nothing otherwise. -/
def pageContribution (responses : Nat → PageResponse) (q : Nat) :
    List GameDetails :=
  if pythonTruthy (fetch_popular_games (responses q)) then
    (fetch_popular_games (responses q)).getD []
  else []

/-- Whether the loop takes the `else` branch (line 132) for page `q`. -/
def pageFailed (responses : Nat → PageResponse) (q : Nat) : Bool :=
  !pythonTruthy (fetch_popular_games (responses q))

theorem foldl_pageFetchStep (responses : Nat → PageResponse) :
    ∀ (ps : List Nat) (acc : List GameDetails × List String),
      ps.foldl (pageFetchStep responses) acc =
        (acc.1 ++ (ps.map (pageContribution responses)).flatten,
         acc.2 ++ (ps.filter (pageFailed responses)).map failLog) := by
  intro ps
  induction ps with
  | nil => intro acc; simp
  | cons p ps ih =>
      intro acc
      rw [List.foldl_cons, ih]
      cases h : pythonTruthy (fetch_popular_games (responses p)) <;>
        simp [pageFetchStep, pageContribution, pageFailed, h, List.append_assoc]

theorem fetchPages_eq (responses : Nat → PageResponse) :
    fetchPages responses =
      (((List.range' 1 5).map (pageContribution responses)).flatten,
       ((List.range' 1 5).filter (pageFailed responses)).map failLog) := by
  simp [fetchPages, foldl_pageFetchStep]

theorem decodeItems_eq_none {g : ApiGameItem} (hname : g.name = none) :
    ∀ {items : List ApiGameItem}, g ∈ items → decodeItems items = none := by
  intro items hg
  induction hg with
  | head rest => simp [decodeItems, decodeItem, hname]
  | tail b hmem ih =>
      simp only [decodeItems, ih]
      cases decodeItem b <;> rfl

theorem addTiles_cons (g : GameDetails) (gs : List GameDetails) (s : AppState) :
    addTiles (g :: gs) s =
      addTiles gs
        (if g.background_image = "" then
           { s with log := s.log ++ [noImageLog g.name] }
         else { s with tiles := s.tiles ++ [g] }) := rfl

theorem addTiles_fields :
    ∀ (games : List GameDetails) (s : AppState),
      (addTiles games s).tiles =
          s.tiles ++ games.filter (fun g => ¬ g.background_image = "") ∧
      (addTiles games s).log =
          s.log ++ (games.filter (fun g => g.background_image = "")).map
            (fun g => noImageLog g.name) := by
  intro games
  induction games with
  | nil => intro s; simp [addTiles]
  | cons g gs ih =>
      intro s
      rw [addTiles_cons]
      by_cases h : g.background_image = ""
      · obtain ⟨ht, hl⟩ := ih { s with log := s.log ++ [noImageLog g.name] }
        rw [if_pos h]
        refine ⟨?_, ?_⟩
        · rw [ht]; simp [List.filter_cons, h]
        · rw [hl]; simp [List.filter_cons, h, List.append_assoc]
      · obtain ⟨ht, hl⟩ := ih { s with tiles := s.tiles ++ [g] }
        rw [if_neg h]
        refine ⟨?_, ?_⟩
        · rw [ht]; simp [List.filter_cons, h, List.append_assoc]
        · rw [hl]; simp [List.filter_cons, h]

/-! ## Concrete sample data used by counterexamples and witnesses -/

/-- A `results` item with no `name` field. -/
def itemNoName : ApiGameItem :=
  { name := none
    description := some "d"
    released := some "2020-01-01"
    background_image := some "img.jpg" }

/-- A fully populated `results` item. -/
def itemFull : ApiGameItem :=
  { name := some "Portal"
    description := some "Puzzles"
    released := some "2007-10-10"
    background_image := some "portal.jpg" }

/-- A `results` item carrying only the required `name`. -/
def itemNameOnly : ApiGameItem :=
  { name := some "Portal"
    description := none
    released := none
    background_image := none }

/-- The record `itemFull` decodes to. -/
def portalRecord : GameDetails :=
  { name := "Portal"
    description := "Puzzles"
    release_date := "2007-10-10"
    background_image := "portal.jpg" }

/-- A decoded record with an empty `background_image`. -/
def noImageRecord : GameDetails :=
  { name := "TextQuest"
    description := "d"
    release_date := "2020-01-01"
    background_image := "" }

/-- Ten identical well-formed items per page. -/
def sampleItems : List ApiGameItem := List.replicate 10 itemFull

/-- The ten records `sampleItems` decodes to. -/
def samplePage : List GameDetails := List.replicate 10 portalRecord

/-- Every page replies 200 with ten valid results. -/
def sampleResponses : Nat → PageResponse :=
  fun _ => .reply 200 (.jsonResults sampleItems)

/-- Page 3 suffers a network error; every other page succeeds. -/
def failingResponses : Nat → PageResponse :=
  fun p => if p = 3 then .netError else .reply 200 (.jsonResults sampleItems)

/-- Every page replies 200 with a JSON body that has no `results` key. -/
def emptyResponses : Nat → PageResponse :=
  fun _ => .reply 200 Body.jsonNoResults

/-! ## Claims -/

/-- C1 counterexample: a page whose `results` hold one item without `name`
(`itemNoName`) next to a perfectly decodable item (`itemFull`) makes
`fetch_popular_games` return `None` for the whole page — the remaining good
item is not returned, contradicting the claim that only the bad item is
skipped. -/
theorem C1_counterexample :
    fetch_popular_games (.reply 200 (.jsonResults [itemNoName, itemFull])) =
        none ∧
    decodeItem itemFull = some portalRecord := ⟨rfl, rfl⟩

/-- C1 amended: an item missing the required `name` field raises `KeyError`
inside the list comprehension, the blanket `except` clause catches it, and
`fetch_popular_games` returns `None` for the entire page — no item of that
page is returned. -/
theorem C1_missing_name_fails_page (status : Nat) (items : List ApiGameItem)
    (g : ApiGameItem) (hg : g ∈ items) (hname : g.name = none) :
    fetch_popular_games (.reply status (.jsonResults items)) = none := by
  have hnone : decodeItems items = none := decodeItems_eq_none hname hg
  by_cases h : raise_for_status_raises status <;>
    simp [fetch_popular_games, h, hnone]

/-- C1 witness: the amended theorem at the concrete bad page. -/
theorem C1_witness :
    fetch_popular_games (.reply 418 (.jsonResults [itemNoName, itemFull])) =
        none :=
  C1_missing_name_fails_page 418 [itemNoName, itemFull] itemNoName
    (List.mem_cons_self _ _) rfl

/-- C2 counterexample: status 304 is outside 2xx, yet `raise_for_status`
does not raise for it (it raises only for 400-599), so a 304 reply carrying
a JSON body with results is decoded and returned as a success, not `None`. -/
theorem C2_counterexample :
    ¬ (200 ≤ 304 ∧ 304 < 300) ∧
    fetch_popular_games (.reply 304 (.jsonResults [itemFull])) =
        some [portalRecord] :=
  ⟨by omega, rfl⟩

/-- C2 amended: when the HTTP request raises — a connection-level
`RequestException`, or `raise_for_status` on a 4xx/5xx status — the
exception is caught inside `fetch_popular_games`, which returns `None`;
being a total function into `Option`, it propagates no exception. -/
theorem C2_error_returns_none (resp : PageResponse)
    (h : resp = .netError ∨
         ∃ status body, resp = .reply status body ∧
           raise_for_status_raises status) :
    fetch_popular_games resp = none := by
  rcases h with rfl | ⟨status, body, rfl, hs⟩
  · rfl
  · simp [fetch_popular_games, hs]

/-- C2 witness: the amended theorem at a concrete network error. -/
theorem C2_witness : fetch_popular_games .netError = none :=
  C2_error_returns_none .netError (Or.inl rfl)

/-- C3: an item that has `name` but lacks `description`, `released` or
`background_image` decodes (on a non-raising status) to a record carrying
the documented sentinel for each missing field. -/
theorem C3_sentinels (g : ApiGameItem) (n : String) (status : Nat)
    (hn : g.name = some n) (hs : ¬ raise_for_status_raises status) :
    ∃ r : GameDetails,
      fetch_popular_games (.reply status (.jsonResults [g])) = some [r] ∧
      r.name = n ∧
      (g.description = none → r.description = "No description available") ∧
      (g.released = none → r.release_date = "Unknown release date") ∧
      (g.background_image = none → r.background_image = "") := by
  refine ⟨{ name := n
            description := g.description.getD "No description available"
            release_date := g.released.getD "Unknown release date"
            background_image := g.background_image.getD "" },
          ?_, rfl, ?_, ?_, ?_⟩
  · simp [fetch_popular_games, hs, decodeItems, decodeItem, hn]
  · intro hx; simp [hx]
  · intro hx; simp [hx]
  · intro hx; simp [hx]

/-- C3 witness: the theorem at the item carrying only `name`, status 200. -/
theorem C3_witness :
    ∃ r : GameDetails,
      fetch_popular_games (.reply 200 (.jsonResults [itemNameOnly])) =
          some [r] ∧
      r.name = "Portal" ∧
      (itemNameOnly.description = none →
        r.description = "No description available") ∧
      (itemNameOnly.released = none →
        r.release_date = "Unknown release date") ∧
      (itemNameOnly.background_image = none → r.background_image = "") :=
  C3_sentinels itemNameOnly "Portal" 200 rfl (by decide)

/-- C4: when every page 1..5 fetches successfully with 10 records, the
aggregated `all_popular_games` list is the concatenation of the five pages
in page order (each page keeping its API response order) and has exactly 50
records. -/
theorem C4_fifty_records (responses : Nat → PageResponse)
    (pages : Nat → List GameDetails)
    (hfetch : ∀ p ∈ List.range' 1 5,
        fetch_popular_games (responses p) = some (pages p))
    (hlen : ∀ p ∈ List.range' 1 5, (pages p).length = 10) :
    (fetchPages responses).1 =
        pages 1 ++ (pages 2 ++ (pages 3 ++ (pages 4 ++ pages 5))) ∧
    (fetchPages responses).1.length = 50 := by
  have hc : ∀ p ∈ List.range' 1 5, pageContribution responses p = pages p := by
    intro p hp
    have hf := hfetch p hp
    have hl := hlen p hp
    have hne : pages p ≠ [] := by
      intro hnil
      rw [hnil] at hl
      exact absurd hl (by decide)
    have ht : pythonTruthy (some (pages p)) = true := by
      cases hq : pages p with
      | nil => exact absurd hq hne
      | cons a l => rfl
    simp [pageContribution, hf, ht]
  have e1 := hc 1 (by decide)
  have e2 := hc 2 (by decide)
  have e3 := hc 3 (by decide)
  have e4 := hc 4 (by decide)
  have e5 := hc 5 (by decide)
  have hfirst : (fetchPages responses).1 =
      pages 1 ++ (pages 2 ++ (pages 3 ++ (pages 4 ++ pages 5))) := by
    rw [fetchPages_eq]
    show (([1, 2, 3, 4, 5].map (pageContribution responses)).flatten) = _
    simp [e1, e2, e3, e4, e5]
  refine ⟨hfirst, ?_⟩
  rw [hfirst]
  simp [hlen 1 (by decide), hlen 2 (by decide), hlen 3 (by decide),
        hlen 4 (by decide), hlen 5 (by decide)]

/-- C4 witness: the theorem at five identical successful pages. -/
theorem C4_witness :
    (fetchPages sampleResponses).1 =
        samplePage ++ (samplePage ++ (samplePage ++ (samplePage ++ samplePage))) ∧
    (fetchPages sampleResponses).1.length = 50 :=
  C4_fifty_records sampleResponses (fun _ => samplePage)
    (fun _ _ => rfl) (fun _ _ => rfl)

/-- C5: an empty (Python-falsy) effective API key — e.g. `GAME_API_KEY` set
to the empty string, making `api_key env = ""` — sends `build` into the
failed branch: the fixed error message is shown, the loading popup is
dismissed, `load_games` is never scheduled, and no HTTP request is issued
during startup. -/
theorem C5_empty_key_no_requests (env : Option String)
    (h : api_key env = "") :
    (build (api_key env)).state.error_label = buildErrorMsg ∧
    (build (api_key env)).state.popup_open = false ∧
    (build (api_key env)).loadScheduled = false ∧
    startupHttpRequests (api_key env) = 0 := by
  rw [h]
  exact ⟨rfl, rfl, rfl, rfl⟩

/-- C5 witness: the theorem with `GAME_API_KEY` set to the empty string. -/
theorem C5_witness :
    (build (api_key (some ""))).state.error_label = buildErrorMsg ∧
    (build (api_key (some ""))).state.popup_open = false ∧
    (build (api_key (some ""))).loadScheduled = false ∧
    startupHttpRequests (api_key (some "")) = 0 :=
  C5_empty_key_no_requests (some "") rfl

/-- C6: a failed (falsy) page `p` in 1..5 gets its failure message logged
and contributes nothing, while the aggregated list is still exactly the
concatenation of every page's own contribution over all five pages — the
loop attempts every page once (no retry, no abort) and other pages' records
are untouched. -/
theorem C6_failed_page_isolated (responses : Nat → PageResponse) (p : Nat)
    (hp : p ∈ List.range' 1 5)
    (hfail : pythonTruthy (fetch_popular_games (responses p)) = false) :
    failLog p ∈ (fetchPages responses).2 ∧
    (fetchPages responses).2 =
        ((List.range' 1 5).filter (pageFailed responses)).map failLog ∧
    (fetchPages responses).1 =
        ((List.range' 1 5).map (pageContribution responses)).flatten ∧
    pageContribution responses p = [] := by
  rw [fetchPages_eq]
  refine ⟨?_, rfl, rfl, ?_⟩
  · exact List.mem_map_of_mem _
      (List.mem_filter.mpr ⟨hp, by simp [pageFailed, hfail]⟩)
  · simp [pageContribution, hfail]

/-- C6 witness: the theorem where page 3 hits a network error. -/
theorem C6_witness :
    failLog 3 ∈ (fetchPages failingResponses).2 ∧
    (fetchPages failingResponses).2 =
        ((List.range' 1 5).filter (pageFailed failingResponses)).map failLog ∧
    (fetchPages failingResponses).1 =
        ((List.range' 1 5).map (pageContribution failingResponses)).flatten ∧
    pageContribution failingResponses 3 = [] :=
  C6_failed_page_isolated failingResponses 3 (by decide) rfl

/-- C7: whatever the page responses, whatever the starting GUI state, and
whether the `try` body of `load_games` completes normally (`crash = none`)
or raises an unexpected exception, the `finally` clause dismisses the
loading popup; and on an unexpected exception the error text is surfaced in
the status label instead of crashing. -/
theorem C7_popup_always_dismissed (responses : Nat → PageResponse)
    (crash : Option String) (s : AppState) (e : String) :
    (load_games responses crash s).popup_open = false ∧
    (load_games responses (some e) s).error_label = generalErrorMsg e :=
  ⟨rfl, rfl⟩

/-- C8: in the tile loop, the grid receives exactly one tile per record with
a non-empty `background_image`, in catalog order, and none for the others;
a record `g` with an empty `background_image` additionally gets a warning
logged that names the game. -/
theorem C8_empty_image_skipped (games : List GameDetails) (s : AppState)
    (g : GameDetails) (hg : g ∈ games) (hempty : g.background_image = "") :
    (addTiles games s).tiles =
        s.tiles ++ games.filter (fun x => ¬ x.background_image = "") ∧
    noImageLog g.name ∈ (addTiles games s).log := by
  obtain ⟨ht, hl⟩ := addTiles_fields games s
  refine ⟨ht, ?_⟩
  rw [hl]
  exact List.mem_append_right _
    (List.mem_map_of_mem _ (List.mem_filter.mpr ⟨hg, by simp [hempty]⟩))

/-- C8 witness: the theorem on a catalog holding one image-less record and
one record with a poster. -/
theorem C8_witness :
    (addTiles [noImageRecord, portalRecord] initialState).tiles =
        initialState.tiles ++
          [noImageRecord, portalRecord].filter
            (fun x => ¬ x.background_image = "") ∧
    noImageLog noImageRecord.name ∈
        (addTiles [noImageRecord, portalRecord] initialState).log :=
  C8_empty_image_skipped [noImageRecord, portalRecord] initialState
    noImageRecord (List.mem_cons_self _ _) rfl

/-- C9: code bug at src/main.py line 141 — the `on_release` bind targets an
`AsyncImage`, which never registers that event, so Kivy's `bind` silently
attaches nothing: tapping a rendered tile leaves the application state
entirely unchanged (in particular the `ScreenManager` stays on whatever
screen it showed), and the claimed transition to the detail screen never
happens. The handlers themselves would behave as the claim says —
`show_game_details` switches to the detail screen and `go_back` to the main
screen unconditionally — but a tap never reaches `show_game_details`, and
the Back button is only ever created inside it. -/
theorem C9_tap_does_not_navigate (s : AppState) :
    tapTile s = s ∧
    (tapTile initialState).current = ScreenName.mainScreen ∧
    (show_game_details s).current = ScreenName.detailScreen ∧
    (go_back s).current = ScreenName.mainScreen :=
  ⟨rfl, rfl, rfl, rfl⟩

/-- C10: a 2xx reply whose JSON body has no `results` key or an empty
`results` array makes `fetch_popular_games` return the empty list — a
success value, not `None` — yet the caller's truthiness test cannot tell it
from `None`, so the page loop logs it with the failure message. -/
theorem C10_empty_results_logged_as_failure
    (status : Nat) (body : Body) (responses : Nat → PageResponse) (p : Nat)
    (h2 : 200 ≤ status) (h3 : status < 300)
    (hbody : body = Body.jsonNoResults ∨ body = Body.jsonResults [])
    (hp : p ∈ List.range' 1 5) (hresp : responses p = .reply status body) :
    fetch_popular_games (.reply status body) = some [] ∧
    pythonTruthy (some []) = pythonTruthy none ∧
    failLog p ∈ (fetchPages responses).2 := by
  have hnr : ¬ raise_for_status_raises status := by
    rintro ⟨h4, -⟩
    omega
  have hfetch : fetch_popular_games (.reply status body) = some [] := by
    rcases hbody with rfl | rfl <;>
      simp [fetch_popular_games, hnr, decodeItems]
  refine ⟨hfetch, rfl, ?_⟩
  rw [fetchPages_eq]
  exact List.mem_map_of_mem _
    (List.mem_filter.mpr ⟨hp, by simp [pageFailed, hresp, hfetch, pythonTruthy]⟩)

/-- C10 witness: the theorem at page 2 of an environment whose every reply
is 200 with no `results` key. -/
theorem C10_witness :
    fetch_popular_games (.reply 200 Body.jsonNoResults) = some [] ∧
    pythonTruthy (some []) = pythonTruthy none ∧
    failLog 2 ∈ (fetchPages emptyResponses).2 :=
  C10_empty_results_logged_as_failure 200 Body.jsonNoResults emptyResponses 2
    (by decide) (by decide) (Or.inl rfl) (by decide) rfl

end GameApp
